import Mathlib

/-!
Browser deep links: a shallow embedding of `src/browser-deeplink.js`

The module keeps one mutable `settings` object, reads the ambient user-agent,
`location.href` and `Date.now()`, assigns `window.location.href` and calls
`setTimeout`.  Here every function of the module is a Lean function over

* `Env`   : what the browser supplies (user-agent, current location, clock);
* `State` : what the module can change (the settings, the callbacks handed to
  `setTimeout`, the values assigned to `window.location.href`);
* `Outcome` : how a call ends (a returned value or a thrown `TypeError`).

JavaScript strings are Lean `String`s; where the source indexes a string
(`indexOf`, `substring`) the embedding works on its UTF-16 code units, as
JavaScript does.  Numbers (`delay`, `delta`, timestamps) are integers.
-/

set_option maxRecDepth 100000

namespace Deeplink

/-! ## JavaScript values -/

/-- The JavaScript values that settings fields and call arguments range over:
`undefined`, `null`, a boolean or a string. -/
inductive JSVal where
  | undefined
  | null
  | bool (b : Bool)
  | str (s : String)
  deriving DecidableEq, Repr

namespace JSVal

/-- ToBoolean: `undefined`, `null`, `false` and `""` are falsy. -/
def truthy : JSVal → Bool
  | undefined => false
  | null => false
  | bool b => b
  | str s => !s.data.isEmpty

/-- ToString, as applied by `+` when the other operand is a string. -/
def toStr : JSVal → String
  | undefined => "undefined"
  | null => "null"
  | bool true => "true"
  | bool false => "false"
  | str s => s

/-- The operator `a || b`: `a` when `a` is truthy, else `b`. -/
def or (a b : JSVal) : JSVal := if a.truthy then a else b

/-- The operator `a && b`: `a` when `a` is falsy, else `b`. -/
def and (a b : JSVal) : JSVal := if a.truthy then b else a

/-- The test `typeof v === "string"`. -/
def isString : JSVal → Bool
  | str _ => true
  | _ => false

/-- The loose comparison `v != ""`.  `undefined` and `null` are loosely equal
only to each other, so they differ from `""`; a boolean is compared as a
number with `ToNumber("") = 0`, so `false == ""`; two strings are compared by
content. -/
def neEmpty : JSVal → Bool
  | undefined => true
  | null => true
  | bool b => b
  | str s => !s.data.isEmpty

end JSVal

/-! ## Strings as UTF-16 code units -/

/-- The UTF-16 code units of one code point. -/
def charUnits (c : Char) : List Nat :=
  if c.toNat < 65536 then [c.toNat]
  else [55296 + (c.toNat - 65536) / 1024, 56320 + (c.toNat - 65536) % 1024]

/-- The UTF-16 code units of a string: what JavaScript indexes. -/
def units (s : String) : List Nat := s.data.flatMap charUnits

/-- Whether `pat` is a prefix of `s`. -/
def startsWithUnits : List Nat → List Nat → Bool
  | [], _ => true
  | _ :: _, [] => false
  | p :: ps, c :: cs => p == c && startsWithUnits ps cs

/-- The method `String.prototype.indexOf` on code units: the least index at which `pat`
occurs in `s`, or `none` for the source's `-1`. -/
def indexOf (pat : List Nat) : List Nat → Option Nat
  | [] => if startsWithUnits pat [] then some 0 else none
  | c :: cs =>
    if startsWithUnits pat (c :: cs) then some 0
    else (indexOf pat cs).map (· + 1)

/-- The method `String.prototype.substring(a, b)` on code units, for `a ≤ b`; both ends
are clamped to the length. -/
def substring (s : List Nat) (a b : Nat) : List Nat := (s.drop a).take (b - a)

/-- The call `s.match(pat)` for a pattern without metacharacters (`'Android'`,
`/Chrome/`, ...), read for its truthiness: whether `pat` occurs in `s`. -/
def matchesLit (s : String) (pat : String) : Bool :=
  (indexOf (units pat) (units s)).isSome

/-- The match `uri.match(/([^:]+)/i)[0]`: the leftmost maximal run of
characters other than the colon, or `none` when the match is `null`. -/
def firstRun (uri : String) : Option String :=
  let run := (uri.data.dropWhile (· == ':')).takeWhile (· != ':')
  if run.isEmpty then none else some (String.mk run)

/-! ## ToNumber on the two-unit version string -/

/-- The code units that ToNumber strips from both ends of a string:
WhiteSpace and LineTerminator of the ECMAScript grammar. -/
def isStrWhiteSpace (u : Nat) : Bool :=
  u == 9 || u == 10 || u == 11 || u == 12 || u == 13 || u == 32 || u == 160 ||
  u == 5760 || (8192 ≤ u && u ≤ 8202) || u == 8232 || u == 8233 || u == 8239 ||
  u == 8287 || u == 12288 || u == 65279

/-- A decimal digit's value. -/
def digitVal (u : Nat) : Option Int :=
  if 48 ≤ u ∧ u ≤ 57 then some ((u : Int) - 48) else none

/-- ToNumber of a string of at most two code units, in tenths (so `"39"` is
`some 390` and `".5"` is `some 5`); `none` is `NaN`.  After the white space
is stripped, a string this short is numeric only when it is empty, one
digit, two digits, a digit and a point in either order, or a signed digit. -/
def toNumberTenths (v : List Nat) : Option Int :=
  let t := ((v.dropWhile isStrWhiteSpace).reverse.dropWhile isStrWhiteSpace).reverse
  match t with
  | [] => some 0
  | [a] => (digitVal a).map (· * 10)
  | [a, b] =>
    match digitVal a, digitVal b with
    | some x, some y => some ((10 * x + y) * 10)
    | some x, none => if b == 46 then some (x * 10) else none
    | none, some y =>
      if a == 46 then some y
      else if a == 43 then some (y * 10)
      else if a == 45 then some (-(y * 10))
      else none
    | none, none => none
  | _ => none

/-- The comparison `version < 40` of the source, where `version` is
`undefined` or a string of at most two code units: false for `NaN`. -/
def versionBelow40 : Option (List Nat) → Bool
  | none => false
  | some v =>
    match toNumberTenths v with
    | some n => decide (n < 400)
    | none => false

/-! ## Settings, environment and state -/

/-- The `iOS` object of the settings. -/
structure IOSSettings where
  appName : JSVal
  appId : JSVal
  storeUrl : JSVal
  deriving DecidableEq, Repr

/-- The `android` object of the settings. -/
structure AndroidSettings where
  appId : JSVal
  storeUrl : JSVal
  deriving DecidableEq, Repr

/-- The values `setup` writes to `settings.platform`. -/
inductive Platform where
  | ios
  | android
  deriving DecidableEq, Repr

/-- The module-level `settings` object once `setup` has run. -/
structure Settings where
  iOS : IOSSettings
  android : AndroidSettings
  androidDisabled : JSVal
  fallback : JSVal
  fallbackToWeb : JSVal
  fallbackWebUrl : JSVal
  delay : Int
  delta : Int
  platform : Option Platform
  deriving DecidableEq, Repr

/-- What the browser supplies to a call: `navigator.userAgent`,
`location.href` and `Date.now()`. -/
structure Env where
  userAgent : String
  href : String
  now : Int
  deriving DecidableEq, Repr

/-- A callback handed to `setTimeout`: `openFallback(ts)` with its delay. -/
structure Timer where
  ts : Int
  delay : Int
  deriving DecidableEq, Repr

/-- Everything the module can change. `timers` lists the callbacks handed to
`setTimeout` and `navigations` the values assigned to
`window.location.href`, both oldest first. -/
structure State where
  settings : Settings
  timers : List Timer
  navigations : List JSVal
  deriving DecidableEq, Repr

/-- How a call ends. -/
inductive Outcome where
  | returned (v : JSVal)
  | threw
  deriving DecidableEq, Repr

/-- The assignment `window.location.href = v`. -/
def State.navigate (st : State) (v : JSVal) : State :=
  { st with navigations := st.navigations ++ [v] }

/-- The call `setTimeout(openFallback(ts), delay)`. -/
def State.setTimeout (st : State) (ts delay : Int) : State :=
  { st with timers := st.timers ++ [{ ts := ts, delay := delay }] }

/-! ## The module's functions -/

/-- Lines 69-74: the App Store link built from `settings.iOS`. -/
def getStoreURLiOS (s : Settings) : JSVal :=
  let baseurl := "itms-apps://itunes.apple.com/app/"
  let name := s.iOS.appName
  let id := s.iOS.appId
  if (id.and name).truthy then
    .str (baseurl ++ name.toStr ++ "/id" ++ id.toStr ++ "?mt=8")
  else .null

/-- Lines 82-86: the Play Store link built from `settings.android`. -/
def getStoreURLAndroid (s : Settings) : JSVal :=
  let baseurl := "market://details?id="
  let id := s.android.appId
  if id.truthy then .str (baseurl ++ id.toStr) else .null

/-- Lines 94-101: the store link of the recorded platform; `linkmap[undefined]`
is `undefined`. -/
def getStoreLink (s : Settings) : JSVal :=
  let ios := s.iOS.storeUrl.or (getStoreURLiOS s)
  let android := s.android.storeUrl.or (getStoreURLAndroid s)
  match s.platform with
  | some .ios => ios
  | some .android => android
  | none => .undefined

/-- Lines 110-116: the web fallback link. -/
def getWebLink (env : Env) (s : Settings) : JSVal :=
  if s.fallbackWebUrl.neEmpty then s.fallbackWebUrl else .str env.href

/-- Lines 124-126, read for truthiness. -/
def isAndroid (env : Env) : Bool := matchesLit env.userAgent "Android"

/-- Lines 134-138, read for truthiness. -/
def isIOS (env : Env) : Bool :=
  matchesLit env.userAgent "iPad" || matchesLit env.userAgent "iPhone" ||
    matchesLit env.userAgent "iPod"

/-- Lines 146-148. -/
def isMobile (env : Env) : Bool := isAndroid env || isIOS env

/-- Lines 163-171: the callback `openFallback(ts)`, run in environment `env`
(so `env.now` is the `Date.now()` of the firing). -/
def openFallback (ts : Int) (env : Env) (st : State) : State :=
  let link := if st.settings.fallbackToWeb.truthy then getWebLink env st.settings
    else getStoreLink st.settings
  let wait := st.settings.delay + st.settings.delta
  if link.isString && decide (env.now - ts < wait) then st.navigate link else st

/-- The result of `get_browser`: both fields are `undefined` (`none`) when the
user-agent has no `"Chrome"`. -/
structure Browser where
  name : Option String
  version : Option (List Nat)
  deriving DecidableEq, Repr

/-- Lines 195-209. -/
def get_browser (env : Env) : Browser :=
  let nAgt := units env.userAgent
  match indexOf (units "Chrome") nAgt with
  | some verOffset =>
    { name := some "Chrome", version := some (substring nAgt (verOffset + 7) (verOffset + 9)) }
  | none => { name := none, version := none }

/-- The test of lines 224 and 263: an Android user-agent that matches
`/Chrome/` and whose sniffed version compares below 40. -/
def oldChrome (env : Env) : Bool :=
  isAndroid env && matchesLit env.userAgent "Chrome" && versionBelow40 (get_browser env).version

/-- The test of lines 228, 267 and 295: Android, and neither `/Firefox/` nor
`/WebView/` matches. -/
def qualifying (env : Env) : Bool :=
  isAndroid env && !matchesLit env.userAgent "Firefox" && !matchesLit env.userAgent "WebView"

/-- The rewrite of lines 230-233, 269-272 and 297-300: the intent string for
`uri`, or `none` when the statement `matches[0]` throws a `TypeError` (no
match, or `uri` has no method `match`). -/
def intentUri (s : Settings) (uri : JSVal) : Option JSVal :=
  match uri with
  | .str u =>
    match firstRun u with
    | some m =>
      let uri1 := "intent://" ++ m ++ "#Intent;scheme=" ++ m
      let uri2 := uri1 ++ (";package=" ++ s.android.appId.toStr)
      some (.str (uri2 ++ (";S.browser_fallback_url=" ++ s.fallbackWebUrl.toStr ++ ";end")))
    | none => none
  | _ => none

/-- The `options` object given to `setup`, with the keys the module documents
(those of `defaults`): `none` for a key that is not given. -/
structure Options where
  iOS : Option IOSSettings := none
  android : Option AndroidSettings := none
  androidDisabled : Option JSVal := none
  fallback : Option JSVal := none
  fallbackToWeb : Option JSVal := none
  fallbackWebUrl : Option JSVal := none
  delay : Option Int := none
  delta : Option Int := none
  deriving DecidableEq, Repr

/-- Lines 34-43; an empty object has every field `undefined`. -/
def defaults : Settings :=
  { iOS := { appName := .undefined, appId := .undefined, storeUrl := .undefined }
    android := { appId := .undefined, storeUrl := .undefined }
    androidDisabled := .bool false
    fallback := .bool true
    fallbackToWeb := .bool false
    fallbackWebUrl := .str ""
    delay := 3000
    delta := 500
    platform := none }

/-- Lines 52-61: every key of `defaults`, overwritten by every key of
`options`. Neither object has a key `platform`, so the result has none
either. -/
def extend (d : Settings) (o : Options) : Settings :=
  { iOS := o.iOS.getD d.iOS
    android := o.android.getD d.android
    androidDisabled := o.androidDisabled.getD d.androidDisabled
    fallback := o.fallback.getD d.fallback
    fallbackToWeb := o.fallbackToWeb.getD d.fallbackToWeb
    fallbackWebUrl := o.fallbackWebUrl.getD d.fallbackWebUrl
    delay := o.delay.getD d.delay
    delta := o.delta.getD d.delta
    platform := d.platform }

/-- Lines 180-185. -/
def setup (options : Options) (env : Env) (st : State) : State :=
  let s0 := extend defaults options
  let s1 := if isAndroid env then { s0 with platform := some .android } else s0
  let s2 := if isIOS env then { s1 with platform := some .ios } else s1
  { st with settings := s2 }

/-- Lines 211-248, the function `open` of the module. -/
def openLink (uri fallbackWebUrl : JSVal) (env : Env) (st : State) : State × Outcome :=
  if !isMobile env then (st, .returned (.bool false))
  else if isAndroid env && st.settings.androidDisabled.truthy then (st, .returned .undefined)
  else
    let st1 : State := { st with settings := { st.settings with fallbackWebUrl := fallbackWebUrl } }
    if oldChrome env then (st1, .returned .undefined)
    else
      let rewritten : Option JSVal :=
        if qualifying env then intentUri st1.settings uri else some uri
      match rewritten with
      | none => (st1, .threw)
      | some uri1 =>
        let st2 :=
          if st1.settings.fallback.truthy || st1.settings.fallbackToWeb.truthy then
            st1.setTimeout env.now st1.settings.delay
          else st1
        (st2.navigate uri1, .returned (.bool true))

/-- Lines 250-292. -/
def openWithButton (uri fallbackWebUrl : JSVal) (env : Env) (st : State) : State × Outcome :=
  if !isMobile env then (st, .returned .undefined)
  else if isAndroid env && st.settings.androidDisabled.truthy then (st, .returned .undefined)
  else
    let st1 : State := { st with settings := { st.settings with fallbackWebUrl := fallbackWebUrl } }
    if oldChrome env then (st1.navigate fallbackWebUrl, .returned (.bool true))
    else
      let rewritten : Option JSVal :=
        if qualifying env then intentUri st1.settings uri else some uri
      match rewritten with
      | none => (st1, .threw)
      | some uri1 =>
        let st2 :=
          if st1.settings.fallback.truthy || st1.settings.fallbackToWeb.truthy then
            st1.setTimeout env.now st1.settings.delay
          else st1
        (st2.navigate uri1, .returned (.bool true))

/-- Lines 294-303. -/
def getLink (uri : JSVal) (env : Env) (st : State) : State × Outcome :=
  if qualifying env then
    match intentUri st.settings uri with
    | some uri1 => (st, .returned uri1)
    | none => (st, .threw)
  else (st, .returned uri)

/-! ## Example inputs -/

/-- An Android Chrome 45 user-agent, a page and a clock reading. -/
def envChrome45 : Env :=
  { userAgent := "Mozilla/5.0 (Linux; Android 5.1; Nexus 5) AppleWebKit/537.36 Chrome/45.0.2454.94 Mobile Safari/537.36"
    href := "https://page.example/"
    now := 1000 }

/-- An Android Chrome 39 user-agent. -/
def envChrome39 : Env :=
  { userAgent := "Mozilla/5.0 (Linux; Android 4.4.2; Nexus 5) AppleWebKit/537.36 Chrome/39.0.2171.93 Mobile Safari/537.36"
    href := "https://page.example/"
    now := 1000 }

/-- An iPhone Safari user-agent. -/
def envIPhone : Env :=
  { userAgent := "Mozilla/5.0 (iPhone; CPU iPhone OS 9_1 like Mac OS X) AppleWebKit/601.1.46 Version/9.0 Mobile/13B143 Safari/601.1"
    href := "https://page.example/"
    now := 1000 }

/-- A desktop Firefox user-agent. -/
def envDesktop : Env :=
  { userAgent := "Mozilla/5.0 (X11; Linux x86_64; rv:41.0) Gecko/20100101 Firefox/41.0"
    href := "https://page.example/"
    now := 1000 }

/-- The options `{ iOS: { appName: "App", appId: "123" }, android: { appId: "com.app" } }`. -/
def appOptions : Options :=
  { iOS := some { appName := .str "App", appId := .str "123", storeUrl := .undefined }
    android := some { appId := .str "com.app", storeUrl := .undefined } }

/-- The state before any call: nothing scheduled, nothing assigned. -/
def freshState : State := { settings := defaults, timers := [], navigations := [] }

/-- The state after `setup(appOptions)` on Android Chrome 45. -/
def stateChrome45 : State := setup appOptions envChrome45 freshState

/-- The state after `setup(appOptions)` and a fallback URL `"https://x.com"`
on Android Chrome 45. -/
def stateChrome45Fallback : State :=
  let st := setup appOptions envChrome45 freshState
  { st with settings := { st.settings with fallbackWebUrl := .str "https://x.com" } }

/-- The state after `setup(appOptions)` on Android Chrome 39. -/
def stateChrome39 : State := setup appOptions envChrome39 freshState

/-- The state after `setup({ fallbackToWeb: true })` on an iPhone. -/
def stateWebFallback : State :=
  setup { fallbackToWeb := some (.bool true) } envIPhone freshState

/-- An Android Chrome 100 user-agent. -/
def envChrome100 : Env :=
  { userAgent := "Mozilla/5.0 (Linux; Android 12; Pixel 6) AppleWebKit/537.36 Chrome/100.0.4896.127 Mobile Safari/537.36"
    href := "https://page.example/"
    now := 1000 }

/-- An Android Firefox user-agent. -/
def envAndroidFirefox : Env :=
  { userAgent := "Mozilla/5.0 (Android 5.1; Mobile; rv:41.0) Gecko/41.0 Firefox/41.0"
    href := "https://page.example/"
    now := 1000 }

/-- The options of `appOptions` with a store URL override on both platforms. -/
def overrideOptions : Options :=
  { iOS := some { appName := .undefined, appId := .undefined,
                  storeUrl := .str "https://store.example/ios" }
    android := some { appId := .undefined, storeUrl := .str "https://store.example/android" } }

/-- The options of `appOptions` with `androidDisabled: true`. -/
def disabledOptions : Options := { appOptions with androidDisabled := some (.bool true) }

/-- The options of `appOptions` with both fallback modes switched off. -/
def noFallbackOptions : Options :=
  { appOptions with fallback := some (.bool false), fallbackToWeb := some (.bool false) }

/-- A user-agent that names both an iPhone and Android. -/
def envBoth : Env :=
  { userAgent := "Mozilla/5.0 (iPhone; like Android 4.4) Mobile"
    href := "https://page.example/"
    now := 1000 }

/-! ## Lemmas on the string helpers -/

theorem startsWithUnits_iff (pat s : List Nat) : startsWithUnits pat s = true ↔ pat <+: s := by
  induction pat generalizing s with
  | nil => simp [startsWithUnits]
  | cons p ps ih =>
    cases s with
    | nil => simp [startsWithUnits]
    | cons c cs =>
      simp only [startsWithUnits, Bool.and_eq_true, beq_iff_eq, ih, List.cons_prefix_cons]

theorem indexOf_isSome_iff (pat s : List Nat) : (indexOf pat s).isSome = true ↔ pat <:+: s := by
  induction s with
  | nil =>
    cases pat with
    | nil => simp [indexOf, startsWithUnits]
    | cons p ps => simp [indexOf, startsWithUnits]
  | cons c cs ih =>
    have key : indexOf pat (c :: cs) =
        if startsWithUnits pat (c :: cs) then some 0 else (indexOf pat cs).map (· + 1) := rfl
    rw [List.infix_cons_iff, ← ih, ← startsWithUnits_iff, key]
    by_cases h : startsWithUnits pat (c :: cs) = true
    · simp [h]
    · simp [h]

/-- The truthiness of `s.match(pat)` is containment of the pattern's code units. -/
theorem matchesLit_iff (s pat : String) : matchesLit s pat = true ↔ units pat <:+: units s :=
  indexOf_isSome_iff _ _

theorem dropWhile_colons (pre rest : List Char) (hpre : ∀ c ∈ pre, c = ':')
    (hrest : ∀ c, rest.head? = some c → c ≠ ':') :
    (pre ++ rest).dropWhile (· == ':') = rest := by
  induction pre with
  | nil =>
    cases rest with
    | nil => rfl
    | cons c cs =>
      have h : c ≠ ':' := hrest c rfl
      simp [List.dropWhile_cons, h]
  | cons p ps ih =>
    have hp : p = ':' := hpre p (List.mem_cons_self _ _)
    have := ih (fun c hc => hpre c (List.mem_cons_of_mem _ hc))
    simp [List.dropWhile_cons, hp, this]

theorem takeWhile_run (run post : List Char) (hrun : ∀ c ∈ run, c ≠ ':')
    (hpost : ∀ c, post.head? = some c → c = ':') :
    (run ++ post).takeWhile (· != ':') = run := by
  induction run with
  | nil =>
    cases post with
    | nil => rfl
    | cons c cs =>
      have h : c = ':' := hpost c rfl
      simp [List.takeWhile_cons, h]
  | cons r rs ih =>
    have hr : r ≠ ':' := hrun r (List.mem_cons_self _ _)
    have := ih (fun c hc => hrun c (List.mem_cons_of_mem _ hc))
    simp [List.takeWhile_cons, hr, this]

/-- When `uri` is colons, then a non-empty colon-free run `s`, then nothing or
something that starts with a colon, the match of `/([^:]+)/` is `s`. -/
theorem firstRun_of_split (uri s : String) (pre post : List Char)
    (hsplit : uri.data = pre ++ s.data ++ post)
    (hpre : ∀ c ∈ pre, c = ':') (hne : s.data ≠ [])
    (hrun : ∀ c ∈ s.data, c ≠ ':')
    (hpost : ∀ c, post.head? = some c → c = ':') :
    firstRun uri = some s := by
  unfold firstRun
  have h1 : (uri.data.dropWhile (· == ':')) = s.data ++ post := by
    rw [hsplit, List.append_assoc]
    apply dropWhile_colons _ _ hpre
    intro c hc
    cases hs : s.data with
    | nil => exact absurd hs hne
    | cons a as =>
      rw [hs] at hc
      simp at hc
      subst hc
      exact hrun _ (by rw [hs]; exact List.mem_cons_self _ _)
  have h2 : (s.data ++ post).takeWhile (· != ':') = s.data := takeWhile_run _ _ hrun hpost
  simp only [h1, h2]
  cases hs : s.data with
  | nil => exact absurd hs hne
  | cons a as =>
    simp
    rw [← hs]

theorem qualifying_of (env : Env) (hA : matchesLit env.userAgent "Android" = true)
    (hF : matchesLit env.userAgent "Firefox" = false)
    (hW : matchesLit env.userAgent "WebView" = false) : qualifying env = true := by
  simp [qualifying, isAndroid, hA, hF, hW]

/-! ## The claims -/

/-- C1: on a user-agent that contains "Android" and neither "Firefox" nor
"WebView", with Android package id `p` and fallback web URL `f` in the
settings, `getLink(uri)` returns
`"intent://" + s + "#Intent;scheme=" + s + ";package=" + p + ";S.browser_fallback_url=" + f + ";end"`,
where `s` is the first maximal run of non-colon characters of `uri` (`uri` is
colons `pre`, then `s`, then `post` which is empty or starts with a colon). -/
theorem getLink_android_intent (env : Env) (st : State) (p f uri s : String)
    (pre post : List Char)
    (hA : matchesLit env.userAgent "Android" = true)
    (hF : matchesLit env.userAgent "Firefox" = false)
    (hW : matchesLit env.userAgent "WebView" = false)
    (hp : st.settings.android.appId = .str p)
    (hf : st.settings.fallbackWebUrl = .str f)
    (hsplit : uri.data = pre ++ s.data ++ post)
    (hpre : ∀ c ∈ pre, c = ':') (hne : s.data ≠ [])
    (hrun : ∀ c ∈ s.data, c ≠ ':')
    (hpost : ∀ c, post.head? = some c → c = ':') :
    getLink (.str uri) env st =
      (st, .returned (.str ("intent://" ++ s ++ "#Intent;scheme=" ++ s ++ ";package=" ++ p ++
        ";S.browser_fallback_url=" ++ f ++ ";end"))) := by
  have hq := qualifying_of env hA hF hW
  have hr := firstRun_of_split uri s pre post hsplit hpre hne hrun hpost
  simp [getLink, hq, intentUri, hr, hp, hf, JSVal.toStr, String.append_assoc]

/-- C1 at package id "com.app", fallback "https://x.com", uri "myapp://open". -/
theorem getLink_android_intent_witness :
    matchesLit envChrome45.userAgent "Android" = true ∧
    matchesLit envChrome45.userAgent "Firefox" = false ∧
    matchesLit envChrome45.userAgent "WebView" = false ∧
    getLink (.str "myapp://open") envChrome45 stateChrome45Fallback =
      (stateChrome45Fallback, .returned (.str
        "intent://myapp#Intent;scheme=myapp;package=com.app;S.browser_fallback_url=https://x.com;end")) :=
  ⟨by decide, by decide, by decide,
    getLink_android_intent envChrome45 stateChrome45Fallback "com.app" "https://x.com" "myapp://open" "myapp"
      [] "://open".data (by decide) (by decide) (by decide) (by decide) (by decide) (by decide)
      (by decide) (by decide) (by decide) (by decide)⟩

/-- C2: on a user-agent that contains none of "Android", "iPad", "iPhone",
"iPod", `open(uri, fallbackWebUrl)` returns `false` and leaves the state as
it was: nothing is assigned to the page location, no timer is scheduled (and
no setting is written). -/
theorem open_not_mobile (env : Env) (st : State) (uri fallbackWebUrl : JSVal)
    (hA : matchesLit env.userAgent "Android" = false)
    (hPad : matchesLit env.userAgent "iPad" = false)
    (hPhone : matchesLit env.userAgent "iPhone" = false)
    (hPod : matchesLit env.userAgent "iPod" = false) :
    (openLink uri fallbackWebUrl env st).2 = .returned (.bool false) ∧
    (openLink uri fallbackWebUrl env st).1.navigations = st.navigations ∧
    (openLink uri fallbackWebUrl env st).1.timers = st.timers ∧
    (openLink uri fallbackWebUrl env st).1 = st := by
  have h : isMobile env = false := by simp [isMobile, isAndroid, isIOS, hA, hPad, hPhone, hPod]
  simp [openLink, h]

/-- C2 on a desktop Firefox user-agent, from the state after `setup`. -/
theorem open_not_mobile_witness :
    matchesLit envDesktop.userAgent "Android" = false ∧
    (openLink (.str "myapp://open") (.str "https://x.com") envDesktop
      (setup appOptions envDesktop freshState)).2 = .returned (.bool false) ∧
    (openLink (.str "myapp://open") (.str "https://x.com") envDesktop
      (setup appOptions envDesktop freshState)).1.navigations = [] ∧
    (openLink (.str "myapp://open") (.str "https://x.com") envDesktop
      (setup appOptions envDesktop freshState)).1.timers = [] :=
  have h := open_not_mobile envDesktop (setup appOptions envDesktop freshState)
    (.str "myapp://open") (.str "https://x.com") (by decide) (by decide) (by decide) (by decide)
  ⟨by decide, h.1, h.2.1, h.2.2.1⟩

/-- C3: the callback `openFallback(ts)`, fired at time `env.now`, assigns the
fallback link (the web link when `fallbackToWeb` is truthy, otherwise the
store link) to the page location exactly when that link is a string and
`now - ts < delay + delta`; otherwise it assigns nothing. It writes no
setting and schedules nothing. -/
theorem openFallback_navigates_iff (ts : Int) (env : Env) (st : State) :
    ((openFallback ts env st).navigations =
        st.navigations ++ [if st.settings.fallbackToWeb.truthy then getWebLink env st.settings
          else getStoreLink st.settings] ↔
      ((if st.settings.fallbackToWeb.truthy then getWebLink env st.settings
          else getStoreLink st.settings).isString = true ∧
        env.now - ts < st.settings.delay + st.settings.delta)) ∧
    ((openFallback ts env st).navigations = st.navigations ↔
      ¬ ((if st.settings.fallbackToWeb.truthy then getWebLink env st.settings
          else getStoreLink st.settings).isString = true ∧
        env.now - ts < st.settings.delay + st.settings.delta)) ∧
    (openFallback ts env st).settings = st.settings ∧
    (openFallback ts env st).timers = st.timers := by
  unfold openFallback
  by_cases h : ((if st.settings.fallbackToWeb.truthy then getWebLink env st.settings
          else getStoreLink st.settings).isString = true ∧
        env.now - ts < st.settings.delay + st.settings.delta)
  · simp [h, State.navigate]
  · have h' : ¬ ((if st.settings.fallbackToWeb.truthy then getWebLink env st.settings
          else getStoreLink st.settings).isString = true ∧
        env.now - ts < st.settings.delay + st.settings.delta) := h
    simp only [Bool.and_eq_true, decide_eq_true_eq, h, if_false, State.navigate]
    simp [h']

/-- C4 as stated fails: with the same uri and the same user-agent, `getLink`
returns one string before and another after a call
`open("other://x", "https://y.com")`, which writes `settings.fallbackWebUrl`. -/
theorem getLink_changes_after_open :
    (getLink (.str "myapp://open") envChrome45 stateChrome45).2 =
      .returned (.str "intent://myapp#Intent;scheme=myapp;package=com.app;S.browser_fallback_url=;end") ∧
    (getLink (.str "myapp://open") envChrome45
      (openLink (.str "other://x") (.str "https://y.com") envChrome45 stateChrome45).1).2 =
      .returned (.str
        "intent://myapp#Intent;scheme=myapp;package=com.app;S.browser_fallback_url=https://y.com;end") ∧
    (getLink (.str "myapp://open") envChrome45 stateChrome45).2 ≠
      (getLink (.str "myapp://open") envChrome45
        (openLink (.str "other://x") (.str "https://y.com") envChrome45 stateChrome45).1).2 := by
  decide

/-- C4, amended: the result of `getLink(uri)` is determined by `uri`, the
user-agent and the two settings `android.appId` and `fallbackWebUrl`; and the
call leaves the state as it was (nothing assigned to the page location, no
timer scheduled, no setting changed). -/
theorem getLink_pure (uri : JSVal) (env env' : Env) (st st' : State)
    (hua : env.userAgent = env'.userAgent)
    (hid : st.settings.android.appId = st'.settings.android.appId)
    (hf : st.settings.fallbackWebUrl = st'.settings.fallbackWebUrl) :
    (getLink uri env st).2 = (getLink uri env' st').2 ∧
    (getLink uri env st).1 = st ∧
    (getLink uri env st).1.navigations = st.navigations ∧
    (getLink uri env st).1.timers = st.timers ∧
    (getLink uri env st).1.settings = st.settings := by
  have hq : qualifying env = qualifying env' := by
    simp [qualifying, isAndroid, hua]
  have hi : intentUri st.settings uri = intentUri st'.settings uri := by
    cases uri <;> simp [intentUri, hid, hf]
  have hst : (getLink uri env st).1 = st := by
    unfold getLink
    split
    · split <;> rfl
    · rfl
  refine ⟨?_, hst, by rw [hst], by rw [hst], by rw [hst]⟩
  unfold getLink
  rw [← hq, ← hi]
  cases qualifying env
  · simp
  · cases intentUri st.settings uri <;> simp

/-- C4 amended, at two states that differ in everything but the package id and
the fallback URL, and two environments with the same user-agent. -/
theorem getLink_pure_witness :
    (getLink (.str "myapp://open") envChrome45 stateChrome45).2 =
      (getLink (.str "myapp://open") { envChrome45 with now := 99, href := "https://elsewhere.example/" }
        { stateChrome45 with
            timers := [{ ts := 5, delay := 3000 }]
            navigations := [.str "a://b"]
            settings := { stateChrome45.settings with delay := 10, fallback := .bool false } }).2 ∧
    (getLink (.str "myapp://open") envChrome45 stateChrome45).1 = stateChrome45 :=
  have h := getLink_pure (.str "myapp://open") envChrome45
    { envChrome45 with now := 99, href := "https://elsewhere.example/" } stateChrome45
    { stateChrome45 with
        timers := [{ ts := 5, delay := 3000 }]
        navigations := [.str "a://b"]
        settings := { stateChrome45.settings with delay := 10, fallback := .bool false } }
    rfl rfl rfl
  ⟨h.1, h.2.1⟩

theorem truthy_str (n : String) (h : n ≠ "") : (JSVal.str n).truthy = true := by
  cases n with
  | mk l =>
    cases l with
    | nil => exact absurd rfl h
    | cons a as => rfl

/-- C5: with platform iOS and no truthy `iOS.storeUrl`, the store link is
`"itms-apps://itunes.apple.com/app/" + appName + "/id" + appId + "?mt=8"`
when `appName` and `appId` are non-empty strings, and is `null` when either
is missing (`undefined`, or any other falsy value). -/
theorem getStoreLink_ios (s : Settings) (hp : s.platform = some .ios)
    (ho : s.iOS.storeUrl.truthy = false) :
    (∀ n i : String, s.iOS.appName = .str n → s.iOS.appId = .str i → n ≠ "" → i ≠ "" →
      getStoreLink s =
        .str ("itms-apps://itunes.apple.com/app/" ++ n ++ "/id" ++ i ++ "?mt=8")) ∧
    ((s.iOS.appName.truthy = false ∨ s.iOS.appId.truthy = false) →
      getStoreLink s = .null) := by
  constructor
  · intro n i hn hi hne hie
    have tn := truthy_str n hne
    have ti := truthy_str i hie
    simp [getStoreLink, hp, JSVal.or, ho, getStoreURLiOS, JSVal.and, hn, hi, tn, ti, JSVal.toStr]
  · intro h
    have : (s.iOS.appId.and s.iOS.appName).truthy = false := by
      unfold JSVal.and
      rcases h with h | h
      · by_cases hi : s.iOS.appId.truthy = true
        · simp [hi, h]
        · simp [hi]
      · simp [h]
    simp [getStoreLink, hp, JSVal.or, ho, getStoreURLiOS, this]

/-- C5 at appName "App", appId "123" (the link), and with the default empty
`iOS` object (no link). -/
theorem getStoreLink_ios_witness :
    (setup appOptions envIPhone freshState).settings.platform = some .ios ∧
    getStoreLink (setup appOptions envIPhone freshState).settings =
      .str "itms-apps://itunes.apple.com/app/App/id123?mt=8" ∧
    getStoreLink (setup {} envIPhone freshState).settings = .null :=
  ⟨by decide,
    (getStoreLink_ios (setup appOptions envIPhone freshState).settings (by decide) (by decide)).1
      "App" "123" (by decide) (by decide) (by decide) (by decide),
    (getStoreLink_ios (setup {} envIPhone freshState).settings (by decide) (by decide)).2
      (Or.inl (by decide))⟩

/-- C6: with platform Android and no truthy `android.storeUrl`, the store
link is `"market://details?id=" + appId` when `appId` is a non-empty string,
and is `null` when it is missing (`undefined`, or any other falsy value). -/
theorem getStoreLink_android (s : Settings) (hp : s.platform = some .android)
    (ho : s.android.storeUrl.truthy = false) :
    (∀ i : String, s.android.appId = .str i → i ≠ "" →
      getStoreLink s = .str ("market://details?id=" ++ i)) ∧
    (s.android.appId.truthy = false → getStoreLink s = .null) := by
  constructor
  · intro i hi hie
    have ti := truthy_str i hie
    simp [getStoreLink, hp, JSVal.or, ho, getStoreURLAndroid, hi, ti, JSVal.toStr]
  · intro h
    simp [getStoreLink, hp, JSVal.or, ho, getStoreURLAndroid, h]

/-- C6 at appId "com.app" (the link), and with the default empty `android`
object (no link). -/
theorem getStoreLink_android_witness :
    (setup appOptions envChrome45 freshState).settings.platform = some .android ∧
    getStoreLink (setup appOptions envChrome45 freshState).settings =
      .str "market://details?id=com.app" ∧
    getStoreLink (setup {} envChrome45 freshState).settings = .null :=
  ⟨by decide,
    (getStoreLink_android (setup appOptions envChrome45 freshState).settings
      (by decide) (by decide)).1 "com.app" (by decide) (by decide),
    (getStoreLink_android (setup {} envChrome45 freshState).settings (by decide) (by decide)).2
      (by decide)⟩

/-- C7 at its failing input: on Android Chrome 39 the version test of lines
224 and 263 holds; `open("myapp://open", "https://x.com")` then returns
`undefined` having assigned nothing to the page location, while
`openWithButton` with the same arguments assigns the fallback web URL.
Neither schedules a timer. -/
theorem open_oldChrome_no_navigation :
    oldChrome envChrome39 = true ∧
    stateChrome39.settings.androidDisabled = .bool false ∧
    (get_browser envChrome39).version = some (units "39") ∧
    (openLink (.str "myapp://open") (.str "https://x.com") envChrome39 stateChrome39).2 =
      .returned .undefined ∧
    (openLink (.str "myapp://open") (.str "https://x.com") envChrome39 stateChrome39).1.navigations
      = [] ∧
    (openLink (.str "myapp://open") (.str "https://x.com") envChrome39 stateChrome39).1.timers
      = [] ∧
    (openWithButton (.str "myapp://open") (.str "https://x.com") envChrome39
      stateChrome39).1.navigations = [.str "https://x.com"] ∧
    (openWithButton (.str "myapp://open") (.str "https://x.com") envChrome39
      stateChrome39).1.timers = [] := by
  decide

/-- C8 at its failing input: after `open("myapp://open")` with no second
argument on an iPhone, `settings.fallbackWebUrl` is `undefined` and
`getWebLink` returns `undefined`, not the page location; the fallback
callback, fired within the window, then assigns nothing. -/
theorem getWebLink_undefined_after_open :
    (openLink (.str "myapp://open") .undefined envIPhone stateWebFallback).2 =
      .returned (.bool true) ∧
    (openLink (.str "myapp://open") .undefined envIPhone
      stateWebFallback).1.settings.fallbackWebUrl = .undefined ∧
    getWebLink envIPhone
      (openLink (.str "myapp://open") .undefined envIPhone stateWebFallback).1.settings =
      .undefined ∧
    getWebLink envIPhone
      (openLink (.str "myapp://open") .undefined envIPhone stateWebFallback).1.settings ≠
      .str envIPhone.href ∧
    (openLink (.str "myapp://open") .undefined envIPhone stateWebFallback).1.timers =
      [{ ts := 1000, delay := 3000 }] ∧
    (openFallback 1000 { envIPhone with now := 4000 }
      (openLink (.str "myapp://open") .undefined envIPhone stateWebFallback).1).navigations =
      [.str "myapp://open"] ∧
    getWebLink envIPhone stateWebFallback.settings = .str envIPhone.href := by
  decide

/-- C9 as stated fails: on a qualifying Android user-agent with setup done,
`getLink("")` and `getLink(":::")` throw (the match is `null`). -/
theorem getLink_throws_without_run :
    qualifying envChrome45 = true ∧
    getLink (.str "") envChrome45 stateChrome45 = (stateChrome45, .threw) ∧
    getLink (.str ":::") envChrome45 stateChrome45 = (stateChrome45, .threw) := by
  decide

theorem firstRun_isSome (uri : String) (h : ∃ c ∈ uri.data, c ≠ ':') :
    ∃ m, firstRun uri = some m := by
  unfold firstRun
  obtain ⟨c, hc, hne⟩ := h
  cases hd : uri.data.dropWhile (· == ':') with
  | nil =>
    rw [List.dropWhile_eq_nil_iff] at hd
    have := hd c hc
    simp at this
    exact absurd this hne
  | cons a as =>
    have ha : ¬ ((a == ':') = true) := by
      have := List.head_dropWhile_not (· == ':') uri.data (by rw [hd]; simp)
      simpa [hd] using this
    have ha' : (a != ':') = true := by simpa using ha
    simp [List.takeWhile_cons, ha']

/-- C9, amended: on a qualifying Android user-agent, for every uri string
with at least one character other than the colon (whatever its shape, with
or without a scheme-like prefix, and whatever the settings hold),
`getLink(uri)` returns a string of the form `"intent://" + body + ";end"`
and leaves the state as it was. -/
theorem getLink_intent_shape (env : Env) (st : State) (uri : String)
    (hq : qualifying env = true) (h : ∃ c ∈ uri.data, c ≠ ':') :
    ∃ body : String,
      getLink (.str uri) env st = (st, .returned (.str ("intent://" ++ body ++ ";end"))) := by
  obtain ⟨m, hm⟩ := firstRun_isSome uri h
  refine ⟨m ++ "#Intent;scheme=" ++ m ++ (";package=" ++ st.settings.android.appId.toStr) ++
    (";S.browser_fallback_url=" ++ st.settings.fallbackWebUrl.toStr), ?_⟩
  simp [getLink, hq, intentUri, hm, String.append_assoc]

/-- C9 amended, at a uri with no scheme-like prefix, with setup done. -/
theorem getLink_intent_shape_witness :
    qualifying envChrome45 = true ∧
    ∃ body : String,
      getLink (.str "no scheme here") envChrome45 stateChrome45 =
        (stateChrome45, .returned (.str ("intent://" ++ body ++ ";end"))) :=
  ⟨by decide,
    getLink_intent_shape envChrome45 stateChrome45 "no scheme here" (by decide)
      ⟨'n', by decide, by decide⟩⟩

/-- C10 at its failing input: on Android Chrome 39,
`openWithButton("myapp://open", "https://x.com")` returns `true` although the
only value it assigned to the page location is the fallback web URL: neither
the deep link nor its intent rewrite. `open` returns `undefined` there. -/
theorem openWithButton_true_without_attempt :
    oldChrome envChrome39 = true ∧
    (openWithButton (.str "myapp://open") (.str "https://x.com") envChrome39 stateChrome39).2 =
      .returned (.bool true) ∧
    (openWithButton (.str "myapp://open") (.str "https://x.com") envChrome39
      stateChrome39).1.navigations = [.str "https://x.com"] ∧
    JSVal.str "myapp://open" ∉ (openWithButton (.str "myapp://open") (.str "https://x.com")
      envChrome39 stateChrome39).1.navigations ∧
    JSVal.str "intent://myapp#Intent;scheme=myapp;package=com.app;S.browser_fallback_url=https://x.com;end"
      ∉ (openWithButton (.str "myapp://open") (.str "https://x.com")
      envChrome39 stateChrome39).1.navigations ∧
    (openLink (.str "myapp://open") (.str "https://x.com") envChrome39 stateChrome39).2 =
      .returned .undefined := by
  decide

/-! ## The dispatchers on the attempt path -/

/-- When `open` passes its three guards and the rewrite yields `uri1`, it
writes `fallbackWebUrl`, schedules the callback if a fallback mode is on,
assigns `uri1` to the page location and returns `true`. -/
theorem openLink_attempt (uri f uri1 : JSVal) (env : Env) (st : State)
    (hm : isMobile env = true)
    (hd : (isAndroid env && st.settings.androidDisabled.truthy) = false)
    (ho : oldChrome env = false)
    (hr : (if qualifying env then intentUri { st.settings with fallbackWebUrl := f } uri
      else some uri) = some uri1) :
    openLink uri f env st =
      ({ settings := { st.settings with fallbackWebUrl := f }
         timers := if st.settings.fallback.truthy || st.settings.fallbackToWeb.truthy then
           st.timers ++ [{ ts := env.now, delay := st.settings.delay }] else st.timers
         navigations := st.navigations ++ [uri1] }, .returned (.bool true)) := by
  unfold openLink
  simp only [hm, hd, ho, hr, Bool.not_true, Bool.false_eq_true, if_false]
  by_cases hfb : (st.settings.fallback.truthy || st.settings.fallbackToWeb.truthy) = true
  · simp [hfb, State.navigate, State.setTimeout]
  · simp [hfb, State.navigate]

/-- The same for `openWithButton`. -/
theorem openWithButton_attempt (uri f uri1 : JSVal) (env : Env) (st : State)
    (hm : isMobile env = true)
    (hd : (isAndroid env && st.settings.androidDisabled.truthy) = false)
    (ho : oldChrome env = false)
    (hr : (if qualifying env then intentUri { st.settings with fallbackWebUrl := f } uri
      else some uri) = some uri1) :
    openWithButton uri f env st =
      ({ settings := { st.settings with fallbackWebUrl := f }
         timers := if st.settings.fallback.truthy || st.settings.fallbackToWeb.truthy then
           st.timers ++ [{ ts := env.now, delay := st.settings.delay }] else st.timers
         navigations := st.navigations ++ [uri1] }, .returned (.bool true)) := by
  unfold openWithButton
  simp only [hm, hd, ho, hr, Bool.not_true, Bool.false_eq_true, if_false]
  by_cases hfb : (st.settings.fallback.truthy || st.settings.fallbackToWeb.truthy) = true
  · simp [hfb, State.navigate, State.setTimeout]
  · simp [hfb, State.navigate]

/-- A user-agent without "Android", or with "Firefox" or "WebView", does not
qualify for the intent rewrite. -/
theorem not_qualifying_of (env : Env)
    (h : matchesLit env.userAgent "Android" = false ∨ matchesLit env.userAgent "Firefox" = true ∨
      matchesLit env.userAgent "WebView" = true) : qualifying env = false := by
  rcases h with h | h | h <;> simp [qualifying, isAndroid, h]

/-! ## The claims, continued -/

/-- C11: on either platform, a non-empty `storeUrl` override of that platform
(`iOS.storeUrl` on iOS, `android.storeUrl` on Android) is what `getStoreLink`
returns, whatever `appName` and `appId` hold. -/
theorem getStoreLink_override (s : Settings) (u : String) (hu : u ≠ "")
    (h : (s.platform = some .ios ∧ s.iOS.storeUrl = .str u) ∨
      (s.platform = some .android ∧ s.android.storeUrl = .str u)) :
    getStoreLink s = .str u := by
  have tu := truthy_str u hu
  rcases h with ⟨hp, hs⟩ | ⟨hp, hs⟩
  · simp [getStoreLink, hp, hs, JSVal.or, tu]
  · simp [getStoreLink, hp, hs, JSVal.or, tu]

/-- C11 on an iPhone and on Android, with no `appName` or `appId` at all. -/
theorem getStoreLink_override_witness :
    getStoreLink (setup overrideOptions envIPhone freshState).settings =
      .str "https://store.example/ios" ∧
    getStoreLink (setup overrideOptions envChrome45 freshState).settings =
      .str "https://store.example/android" ∧
    getStoreLink { (setup overrideOptions envIPhone freshState).settings with
      iOS := { appName := .str "App", appId := .str "123",
               storeUrl := .str "https://store.example/ios" } } =
      .str "https://store.example/ios" :=
  ⟨getStoreLink_override _ "https://store.example/ios" (by decide)
      (Or.inl ⟨by decide, by decide⟩),
    getStoreLink_override _ "https://store.example/android" (by decide)
      (Or.inr ⟨by decide, by decide⟩),
    getStoreLink_override _ "https://store.example/ios" (by decide)
      (Or.inl ⟨by decide, by decide⟩)⟩

/-- C12: on a user-agent that does not contain "Android", or contains
"Firefox", or contains "WebView", `getLink(uri)` returns `uri` unchanged, and
when `open` passes its guards (mobile, Android not disabled, not the old
Chrome branch) the one value it assigns to the page location is `uri`. -/
theorem passthrough_uri (uri f : JSVal) (env : Env) (st : State)
    (h : matchesLit env.userAgent "Android" = false ∨ matchesLit env.userAgent "Firefox" = true ∨
      matchesLit env.userAgent "WebView" = true) :
    getLink uri env st = (st, .returned uri) ∧
    (isMobile env = true → (isAndroid env && st.settings.androidDisabled.truthy) = false →
      oldChrome env = false →
      (openLink uri f env st).2 = .returned (.bool true) ∧
      (openLink uri f env st).1.navigations = st.navigations ++ [uri]) := by
  have hq := not_qualifying_of env h
  refine ⟨by simp [getLink, hq], fun hm hd ho => ?_⟩
  rw [openLink_attempt uri f uri env st hm hd ho (by simp [hq])]
  exact ⟨rfl, rfl⟩

/-- C12 on an iPhone (no "Android") and on Android Firefox. -/
theorem passthrough_uri_witness :
    matchesLit envIPhone.userAgent "Android" = false ∧
    matchesLit envAndroidFirefox.userAgent "Firefox" = true ∧
    getLink (.str "myapp://open") envIPhone (setup appOptions envIPhone freshState) =
      (setup appOptions envIPhone freshState, .returned (.str "myapp://open")) ∧
    (openLink (.str "myapp://open") (.str "https://x.com") envIPhone
      (setup appOptions envIPhone freshState)).1.navigations = [.str "myapp://open"] ∧
    (openLink (.str "myapp://open") (.str "https://x.com") envAndroidFirefox
      (setup appOptions envAndroidFirefox freshState)).1.navigations = [.str "myapp://open"] :=
  ⟨by decide, by decide,
    (passthrough_uri (.str "myapp://open") (.str "https://x.com") envIPhone
      (setup appOptions envIPhone freshState) (Or.inl (by decide))).1,
    ((passthrough_uri (.str "myapp://open") (.str "https://x.com") envIPhone
      (setup appOptions envIPhone freshState) (Or.inl (by decide))).2
        (by decide) (by decide) (by decide)).2,
    ((passthrough_uri (.str "myapp://open") (.str "https://x.com") envAndroidFirefox
      (setup appOptions envAndroidFirefox freshState) (Or.inr (Or.inl (by decide)))).2
        (by decide) (by decide) (by decide)).2⟩

/-- C13: when `open` or `openWithButton` reaches the app attempt (the guards
pass and the rewrite yields `uri1`), it schedules exactly one callback, with
the configured delay and the time of the attempt as its timestamp, if
`fallback` or `fallbackToWeb` is truthy, and schedules nothing if both are
falsy. -/
theorem attempt_schedules_one (uri f uri1 : JSVal) (env : Env) (st : State)
    (hm : isMobile env = true)
    (hd : (isAndroid env && st.settings.androidDisabled.truthy) = false)
    (ho : oldChrome env = false)
    (hr : (if qualifying env then intentUri { st.settings with fallbackWebUrl := f } uri
      else some uri) = some uri1) :
    ((st.settings.fallback.truthy = true ∨ st.settings.fallbackToWeb.truthy = true) →
      (openLink uri f env st).1.timers =
        st.timers ++ [{ ts := env.now, delay := st.settings.delay }] ∧
      (openWithButton uri f env st).1.timers =
        st.timers ++ [{ ts := env.now, delay := st.settings.delay }]) ∧
    ((st.settings.fallback.truthy = false ∧ st.settings.fallbackToWeb.truthy = false) →
      (openLink uri f env st).1.timers = st.timers ∧
      (openWithButton uri f env st).1.timers = st.timers) := by
  rw [openLink_attempt uri f uri1 env st hm hd ho hr,
    openWithButton_attempt uri f uri1 env st hm hd ho hr]
  constructor
  · intro h
    have : (st.settings.fallback.truthy || st.settings.fallbackToWeb.truthy) = true := by
      rcases h with h | h <;> simp [h]
    simp [this]
  · rintro ⟨h1, h2⟩
    simp [h1, h2]

/-- C13 on Android Chrome 45: with the default `fallback: true` one callback
`{ts = 1000, delay = 3000}` is scheduled; with both modes off, none. -/
theorem attempt_schedules_one_witness :
    (openLink (.str "myapp://open") (.str "https://x.com") envChrome45 stateChrome45).1.timers =
      [{ ts := 1000, delay := 3000 }] ∧
    (openWithButton (.str "myapp://open") (.str "https://x.com") envChrome45
      stateChrome45).1.timers = [{ ts := 1000, delay := 3000 }] ∧
    (openLink (.str "myapp://open") (.str "https://x.com") envChrome45
      (setup noFallbackOptions envChrome45 freshState)).1.timers = [] ∧
    (openWithButton (.str "myapp://open") (.str "https://x.com") envChrome45
      (setup noFallbackOptions envChrome45 freshState)).1.timers = [] :=
  have h1 := (attempt_schedules_one (.str "myapp://open") (.str "https://x.com")
    (.str "intent://myapp#Intent;scheme=myapp;package=com.app;S.browser_fallback_url=https://x.com;end")
    envChrome45 stateChrome45 (by decide) (by decide) (by decide) (by decide)).1
    (Or.inl (by decide))
  have h2 := (attempt_schedules_one (.str "myapp://open") (.str "https://x.com")
    (.str "intent://myapp#Intent;scheme=myapp;package=com.app;S.browser_fallback_url=https://x.com;end")
    envChrome45 (setup noFallbackOptions envChrome45 freshState)
    (by decide) (by decide) (by decide) (by decide)).2 ⟨by decide, by decide⟩
  ⟨h1.1, h1.2, h2.1, h2.2⟩

/-- C14 as stated fails: `open("myapp://open", "https://x.com")` on Android
Chrome 45 changes the setting `fallbackWebUrl` from `""` to
`"https://x.com"`, and so does `openWithButton`. -/
theorem open_writes_fallbackWebUrl :
    stateChrome45.settings.fallbackWebUrl = .str "" ∧
    (openLink (.str "myapp://open") (.str "https://x.com") envChrome45
      stateChrome45).1.settings.fallbackWebUrl = .str "https://x.com" ∧
    (openWithButton (.str "myapp://open") (.str "https://x.com") envChrome45
      stateChrome45).1.settings.fallbackWebUrl = .str "https://x.com" ∧
    (openLink (.str "myapp://open") (.str "https://x.com") envChrome45
      stateChrome45).1.settings ≠ stateChrome45.settings := by
  decide

/-- C14, amended: `getLink` changes no setting; `open` and `openWithButton`
change no setting other than `fallbackWebUrl`, which they set to their second
argument when the call passes the mobile and `androidDisabled` guards, and
they change nothing at all when it does not. -/
theorem settings_after_call (uri f : JSVal) (env : Env) (st : State) :
    (getLink uri env st).1.settings = st.settings ∧
    (openLink uri f env st).1.settings =
      (if isMobile env && !(isAndroid env && st.settings.androidDisabled.truthy) then
        { st.settings with fallbackWebUrl := f } else st.settings) ∧
    (openWithButton uri f env st).1.settings =
      (if isMobile env && !(isAndroid env && st.settings.androidDisabled.truthy) then
        { st.settings with fallbackWebUrl := f } else st.settings) := by
  refine ⟨?_, ?_, ?_⟩
  · unfold getLink
    split
    · split <;> rfl
    · rfl
  · unfold openLink
    cases hm : isMobile env
    · simp
    · cases hd : (isAndroid env && st.settings.androidDisabled.truthy)
      · simp only [Bool.not_true, Bool.false_eq_true, if_false, Bool.not_false, Bool.and_self,
          if_true]
        split
        · rfl
        · split
          · rfl
          · simp only [State.navigate]
            split <;> rfl
      · simp
  · unfold openWithButton
    cases hm : isMobile env
    · simp
    · cases hd : (isAndroid env && st.settings.androidDisabled.truthy)
      · simp only [Bool.not_true, Bool.false_eq_true, if_false, Bool.not_false, Bool.and_self,
          if_true]
        split
        · rfl
        · split
          · rfl
          · simp only [State.navigate]
            split <;> rfl
      · simp

/-- C15: on a user-agent that contains "Android", with `androidDisabled`
truthy, `open` and `openWithButton` return `undefined` and leave the state as
it was: nothing assigned to the page location, no timer, no setting
written. -/
theorem android_disabled_noop (uri f : JSVal) (env : Env) (st : State)
    (hA : matchesLit env.userAgent "Android" = true)
    (hd : st.settings.androidDisabled.truthy = true) :
    openLink uri f env st = (st, .returned .undefined) ∧
    openWithButton uri f env st = (st, .returned .undefined) ∧
    (openLink uri f env st).2 ≠ .returned (.bool true) ∧
    (openWithButton uri f env st).2 ≠ .returned (.bool true) := by
  have ha : isAndroid env = true := hA
  have hm : isMobile env = true := by simp [isMobile, ha]
  have h1 : openLink uri f env st = (st, .returned .undefined) := by
    simp [openLink, hm, ha, hd]
  have h2 : openWithButton uri f env st = (st, .returned .undefined) := by
    simp [openWithButton, hm, ha, hd]
  refine ⟨h1, h2, ?_, ?_⟩
  · rw [h1]; simp
  · rw [h2]; simp

/-- C15 on Android Chrome 45 after `setup({..., androidDisabled: true})`. -/
theorem android_disabled_noop_witness :
    (setup disabledOptions envChrome45 freshState).settings.androidDisabled = .bool true ∧
    openLink (.str "myapp://open") (.str "https://x.com") envChrome45
      (setup disabledOptions envChrome45 freshState) =
      (setup disabledOptions envChrome45 freshState, .returned .undefined) ∧
    openWithButton (.str "myapp://open") (.str "https://x.com") envChrome45
      (setup disabledOptions envChrome45 freshState) =
      (setup disabledOptions envChrome45 freshState, .returned .undefined) :=
  have h := android_disabled_noop (.str "myapp://open") (.str "https://x.com") envChrome45
    (setup disabledOptions envChrome45 freshState) (by decide) (by decide)
  ⟨by decide, h.1, h.2.1⟩

/-- When the guards pass and the rewrite throws, `open` has written
`fallbackWebUrl` and nothing else. -/
theorem openLink_throw (uri f : JSVal) (env : Env) (st : State)
    (hm : isMobile env = true)
    (hd : (isAndroid env && st.settings.androidDisabled.truthy) = false)
    (ho : oldChrome env = false)
    (hr : (if qualifying env then intentUri { st.settings with fallbackWebUrl := f } uri
      else some uri) = none) :
    openLink uri f env st =
      ({ st with settings := { st.settings with fallbackWebUrl := f } }, .threw) := by
  unfold openLink
  simp only [hm, hd, ho, hr, Bool.not_true, Bool.false_eq_true, if_false]

/-- The same for `openWithButton`. -/
theorem openWithButton_throw (uri f : JSVal) (env : Env) (st : State)
    (hm : isMobile env = true)
    (hd : (isAndroid env && st.settings.androidDisabled.truthy) = false)
    (ho : oldChrome env = false)
    (hr : (if qualifying env then intentUri { st.settings with fallbackWebUrl := f } uri
      else some uri) = none) :
    openWithButton uri f env st =
      ({ st with settings := { st.settings with fallbackWebUrl := f } }, .threw) := by
  unfold openWithButton
  simp only [hm, hd, ho, hr, Bool.not_true, Bool.false_eq_true, if_false]

/-- The result of `getLink` in terms of the shared rewrite. -/
theorem getLink_eq (uri : JSVal) (env : Env) (st : State) :
    (getLink uri env st).2 =
      match (if qualifying env then intentUri st.settings uri else some uri) with
      | some u => .returned u
      | none => .threw := by
  unfold getLink
  cases qualifying env
  · simp
  · cases intentUri st.settings uri <;> simp

/-- C16: when `open(uri, f)` or `openWithButton(uri, f)` passes its guards,
the value it assigns to the page location is the one `getLink(uri)` returns
under the same user-agent and the settings whose `fallbackWebUrl` is `f`, and
it returns `true`; it throws, having assigned nothing, exactly when that
`getLink(uri)` throws. -/
theorem dispatch_rewrite_is_getLink (uri f : JSVal) (env : Env) (st : State)
    (hm : isMobile env = true)
    (hd : (isAndroid env && st.settings.androidDisabled.truthy) = false)
    (ho : oldChrome env = false) :
    ((openLink uri f env st).1.navigations = st.navigations ++
        (match (getLink uri env
            { st with settings := { st.settings with fallbackWebUrl := f } }).2 with
          | .returned u => [u]
          | .threw => []) ∧
      (openLink uri f env st).2 =
        (match (getLink uri env
            { st with settings := { st.settings with fallbackWebUrl := f } }).2 with
          | .returned _ => .returned (.bool true)
          | .threw => .threw)) ∧
    ((openWithButton uri f env st).1.navigations = st.navigations ++
        (match (getLink uri env
            { st with settings := { st.settings with fallbackWebUrl := f } }).2 with
          | .returned u => [u]
          | .threw => []) ∧
      (openWithButton uri f env st).2 =
        (match (getLink uri env
            { st with settings := { st.settings with fallbackWebUrl := f } }).2 with
          | .returned _ => .returned (.bool true)
          | .threw => .threw)) := by
  rw [getLink_eq]
  cases hr : (if qualifying env then intentUri { st.settings with fallbackWebUrl := f } uri
      else some uri) with
  | none =>
    rw [openLink_throw uri f env st hm hd ho hr, openWithButton_throw uri f env st hm hd ho hr]
    simp [hr]
  | some u =>
    rw [openLink_attempt uri f u env st hm hd ho hr,
      openWithButton_attempt uri f u env st hm hd ho hr]
    simp [hr]

/-- C16 on Android Chrome 45: both dispatchers assign the string that
`getLink` returns once `fallbackWebUrl` is `"https://x.com"`. -/
theorem dispatch_rewrite_is_getLink_witness :
    (getLink (.str "myapp://open") envChrome45 stateChrome45Fallback).2 = .returned (.str
      "intent://myapp#Intent;scheme=myapp;package=com.app;S.browser_fallback_url=https://x.com;end") ∧
    (openLink (.str "myapp://open") (.str "https://x.com") envChrome45
      stateChrome45).1.navigations = [] ++
        (match (getLink (.str "myapp://open") envChrome45 stateChrome45Fallback).2 with
          | .returned u => [u]
          | .threw => []) ∧
    (openWithButton (.str "myapp://open") (.str "https://x.com") envChrome45
      stateChrome45).1.navigations = [] ++
        (match (getLink (.str "myapp://open") envChrome45 stateChrome45Fallback).2 with
          | .returned u => [u]
          | .threw => []) :=
  have h := dispatch_rewrite_is_getLink (.str "myapp://open") (.str "https://x.com") envChrome45
    stateChrome45 (by decide) (by decide) (by decide)
  ⟨by decide, h.1.1, h.2.1⟩

/-- C17: after `setup(options)` each configuration field has the value given
in `options`, or its default when `options` does not give it: `delay` 3000,
`delta` 500, `fallback` true, `fallbackToWeb` false, `androidDisabled` false,
`fallbackWebUrl` `""`, `iOS` and `android` empty objects. Timers and assigned
locations are untouched. -/
theorem setup_fields (o : Options) (env : Env) (st : State) :
    (setup o env st).settings.delay = o.delay.getD 3000 ∧
    (setup o env st).settings.delta = o.delta.getD 500 ∧
    (setup o env st).settings.fallback = o.fallback.getD (.bool true) ∧
    (setup o env st).settings.fallbackToWeb = o.fallbackToWeb.getD (.bool false) ∧
    (setup o env st).settings.androidDisabled = o.androidDisabled.getD (.bool false) ∧
    (setup o env st).settings.fallbackWebUrl = o.fallbackWebUrl.getD (.str "") ∧
    (setup o env st).settings.iOS =
      o.iOS.getD { appName := .undefined, appId := .undefined, storeUrl := .undefined } ∧
    (setup o env st).settings.android =
      o.android.getD { appId := .undefined, storeUrl := .undefined } ∧
    (setup o env st).timers = st.timers ∧
    (setup o env st).navigations = st.navigations := by
  unfold setup
  cases isAndroid env <;> cases isIOS env <;> simp [extend, defaults]

/-- The timers after `open` are the timers before, then at most the one it
scheduled. -/
theorem openLink_timers (uri f : JSVal) (env : Env) (st : State) :
    (openLink uri f env st).1.timers = st.timers ∨
    (openLink uri f env st).1.timers =
      st.timers ++ [{ ts := env.now, delay := st.settings.delay }] := by
  cases hm : isMobile env
  · left; simp [openLink, hm]
  · cases hd : (isAndroid env && st.settings.androidDisabled.truthy)
    · cases ho : oldChrome env
      · cases hr : (if qualifying env then intentUri { st.settings with fallbackWebUrl := f } uri
            else some uri) with
        | none =>
          left
          rw [openLink_throw uri f env st hm hd ho hr]
        | some u =>
          rw [openLink_attempt uri f u env st hm hd ho hr]
          by_cases hfb : (st.settings.fallback.truthy || st.settings.fallbackToWeb.truthy) = true
          · right; simp [hfb]
          · left; simp [hfb]
      · left; simp [openLink, hm, hd, ho, State.navigate]
    · left; simp [openLink, hm, hd]

/-- The same for `openWithButton`. -/
theorem openWithButton_timers (uri f : JSVal) (env : Env) (st : State) :
    (openWithButton uri f env st).1.timers = st.timers ∨
    (openWithButton uri f env st).1.timers =
      st.timers ++ [{ ts := env.now, delay := st.settings.delay }] := by
  cases hm : isMobile env
  · left; simp [openWithButton, hm]
  · cases hd : (isAndroid env && st.settings.androidDisabled.truthy)
    · cases ho : oldChrome env
      · cases hr : (if qualifying env then intentUri { st.settings with fallbackWebUrl := f } uri
            else some uri) with
        | none =>
          left
          rw [openWithButton_throw uri f env st hm hd ho hr]
        | some u =>
          rw [openWithButton_attempt uri f u env st hm hd ho hr]
          by_cases hfb : (st.settings.fallback.truthy || st.settings.fallbackToWeb.truthy) = true
          · right; simp [hfb]
          · left; simp [hfb]
      · left; simp [openWithButton, hm, hd, ho, State.navigate]
    · left; simp [openWithButton, hm, hd]

/-- C18: no call removes or replaces a scheduled callback. The timers before
a call of `open` or `openWithButton` are a prefix of the timers after it, and
`getLink`, `setup` and a firing callback leave the list as it is. Two
consecutive attempts on Android Chrome 45 with `fallback` on, at times 1000
and 2000, leave two callbacks, each with its own timestamp. -/
theorem timers_never_cancelled :
    (∀ (uri f : JSVal) (env : Env) (st : State),
      st.timers <+: (openLink uri f env st).1.timers ∧
      st.timers <+: (openWithButton uri f env st).1.timers ∧
      (getLink uri env st).1.timers = st.timers) ∧
    (∀ (o : Options) (env : Env) (st : State), (setup o env st).timers = st.timers) ∧
    (∀ (ts : Int) (env : Env) (st : State), (openFallback ts env st).timers = st.timers) ∧
    (openWithButton (.str "other://x") (.str "https://y.com") { envChrome45 with now := 2000 }
      (openLink (.str "myapp://open") (.str "https://x.com") envChrome45
        stateChrome45).1).1.timers =
      [{ ts := 1000, delay := 3000 }, { ts := 2000, delay := 3000 }] ∧
    (openLink (.str "other://x") (.str "https://y.com") { envChrome45 with now := 2000 }
      (openLink (.str "myapp://open") (.str "https://x.com") envChrome45
        stateChrome45).1).1.timers =
      [{ ts := 1000, delay := 3000 }, { ts := 2000, delay := 3000 }] := by
  refine ⟨fun uri f env st => ⟨?_, ?_, ?_⟩, fun o env st => rfl, fun ts env st => ?_,
    by decide, by decide⟩
  · rcases openLink_timers uri f env st with h | h <;> simp [h]
  · rcases openWithButton_timers uri f env st with h | h <;> simp [h]
  · unfold getLink
    split
    · split <;> rfl
    · rfl
  · unfold openFallback State.navigate
    simp only []
    split_ifs <;> rfl

/-- C19 at its failing input: on Android Chrome 100 `get_browser` keeps the
two code units `"10"` after `"Chrome/"`, `"10" < 40` holds, and both
dispatchers take the old-version branch: `open` returns `undefined` without
an attempt and `openWithButton` assigns only the fallback web URL. On Chrome
45 the same calls make the attempt. -/
theorem chrome100_taken_as_old :
    matchesLit envChrome100.userAgent "Android" = true ∧
    (get_browser envChrome100).version = some (units "10") ∧
    oldChrome envChrome100 = true ∧
    openLink (.str "myapp://open") (.str "https://x.com") envChrome100
      (setup appOptions envChrome100 freshState) =
      ({ setup appOptions envChrome100 freshState with
          settings := { (setup appOptions envChrome100 freshState).settings with
            fallbackWebUrl := .str "https://x.com" } }, .returned .undefined) ∧
    (openLink (.str "myapp://open") (.str "https://x.com") envChrome100
      (setup appOptions envChrome100 freshState)).1.navigations = [] ∧
    (openWithButton (.str "myapp://open") (.str "https://x.com") envChrome100
      (setup appOptions envChrome100 freshState)).1.navigations = [.str "https://x.com"] ∧
    oldChrome envChrome45 = false ∧
    (openLink (.str "myapp://open") (.str "https://x.com") envChrome45
      stateChrome45).1.navigations = [.str
        "intent://myapp#Intent;scheme=myapp;package=com.app;S.browser_fallback_url=https://x.com;end"] := by
  decide

/-- C20: after `setup(options)` the platform is "ios" when the user-agent
contains "iPad", "iPhone" or "iPod" (also when it contains "Android" too),
"android" when it contains "Android" and none of those, and absent
otherwise. `getStoreLink` then returns the link of that platform (the
override `storeUrl` or the built link), and `undefined` when the platform is
absent. On a user-agent that names both an iPhone and Android the platform is
"ios" and the link is the App Store one; on a desktop user-agent there is no
platform and no link. -/
theorem setup_platform :
    (∀ (o : Options) (env : Env) (st : State),
      (setup o env st).settings.platform =
        (if matchesLit env.userAgent "iPad" || matchesLit env.userAgent "iPhone" ||
            matchesLit env.userAgent "iPod" then some .ios
          else if matchesLit env.userAgent "Android" then some .android
          else none) ∧
      getStoreLink (setup o env st).settings =
        (if matchesLit env.userAgent "iPad" || matchesLit env.userAgent "iPhone" ||
            matchesLit env.userAgent "iPod" then
            (setup o env st).settings.iOS.storeUrl.or (getStoreURLiOS (setup o env st).settings)
          else if matchesLit env.userAgent "Android" then
            (setup o env st).settings.android.storeUrl.or
              (getStoreURLAndroid (setup o env st).settings)
          else .undefined)) ∧
    (matchesLit envBoth.userAgent "Android" = true ∧
      (setup appOptions envBoth freshState).settings.platform = some .ios ∧
      getStoreLink (setup appOptions envBoth freshState).settings =
        .str "itms-apps://itunes.apple.com/app/App/id123?mt=8") ∧
    ((setup appOptions envChrome45 freshState).settings.platform = some .android ∧
      getStoreLink (setup appOptions envChrome45 freshState).settings =
        .str "market://details?id=com.app") ∧
    ((setup appOptions envDesktop freshState).settings.platform = none ∧
      getStoreLink (setup appOptions envDesktop freshState).settings = .undefined) := by
  refine ⟨fun o env st => ?_, by decide, by decide, by decide⟩
  have hi : isIOS env = (matchesLit env.userAgent "iPad" || matchesLit env.userAgent "iPhone" ||
        matchesLit env.userAgent "iPod") := rfl
  have ha : isAndroid env = matchesLit env.userAgent "Android" := rfl
  rw [← hi, ← ha]
  have hp : (setup o env st).settings.platform =
      (if isIOS env then some .ios else if isAndroid env then some .android else none) := by
    unfold setup
    cases isAndroid env <;> cases isIOS env <;> simp [extend, defaults]
  refine ⟨hp, ?_⟩
  unfold getStoreLink
  rw [hp]
  cases isAndroid env <;> cases isIOS env <;> simp

end Deeplink
